import Mathlib

/-!
Shallow embedding of `src/streamlit_app.py`: a synthetic EHR data generator
that fabricates patient records and reshapes them into OMOP CDM `person`
and `condition_occurrence` tables, plus (modelled from the spec, since its
source is absent from the repository snapshot) the motion-blur kernel
builder.

Randomness model: Python's `random` module and the `faker` library are
third-party; the script seeds both once (`Faker.seed(123)`, `random.seed(123)`)
and then draws from them in program order.  We model the seeded pseudo-random
state as a stream of naturals `ℕ → ℕ`; each primitive draw consumes the head
of the stream and passes the tail on.  Library primitives (`random.choice`,
`random.randint`, `fake.date_between`, `fake.date_of_birth`) are modelled by
their documented contracts: a uniform pick is `head % size`, and a date drawn
from an interval is the low end plus `head % width`.

Date model: dates are integers (days since an arbitrary epoch).  Relative
deltas use a 365-day year and a 30-day month, so faker's `'-5y'` is
`today - 1825` days and `'-6m'` is `today - 180` days; calendar components
(year/month/day of a day number) are recovered with the standard civil
calendar algorithm.
-/

/-- A stream of pseudo-random naturals: the state of the seeded generators. -/
def RStream : Type := Nat → Nat

/-- Head of the stream: the next raw draw. -/
def rhead (g : RStream) : Nat := g 0

/-- Tail of the stream: the state after one draw. -/
def rtail (g : RStream) : RStream := fun n => g (n + 1)

/-- Model of `random.choice(xs)`: pick `xs[head % len(xs)]` (with a default
for the empty list, which never occurs in the program). -/
def listChoice {α : Type} (xs : List α) (d : α) (g : RStream) : α :=
  xs.getD (rhead g % xs.length) d

/-- Model of `random.randint(lo, hi)` (both ends inclusive). -/
def randint (lo hi : Nat) (g : RStream) : Nat :=
  lo + rhead g % (hi + 1 - lo)

/-- Model of `fake.date_between(start_date=lo, end_date=hi)`: a day number in
`[lo, hi]` (when `lo ≤ hi`). -/
def dateBetween (lo hi : Int) (g : RStream) : Int :=
  lo + (rhead g % ((hi - lo).toNat + 1) : Nat)

/-- Model of `fake.date_of_birth(minimum_age=a, maximum_age=b)`: faker draws a
birthdate strictly after `today` minus `b+1` years and at most `today` minus
`a` years, so the age in full years at `today` lies in `[a, b]`.  With 365-day
years this is the interval `[today - 365*(b+1) + 1, today - 365*a]`. -/
def date_of_birth (today : Int) (minAge maxAge : Nat) (g : RStream) : Int :=
  dateBetween (today - 365 * (maxAge + 1) + 1) (today - 365 * minAge) g

/-- Age in full (365-day) years at `today` of someone born on day `bd`. -/
def ageAt (today bd : Int) : Int := (today - bd) / 365

/-- Model of the module-level seeding `Faker.seed(123); random.seed(123)`:
a linear congruential step, iterated from the seed, yields the stream of
raw draws.  Any deterministic function of the seed would do; this one is the
classic glibc LCG. -/
def lcgStep (x : Nat) : Nat := (1103515245 * x + 12345) % 2147483648

/-- The pseudo-random stream determined by a seed. -/
def seedStream (seed : Nat) : RStream := fun n => lcgStep^[n + 1] seed

/-- The Hinnant civil-from-days algorithm: day number (days since epoch
1970-01-01) to `(year, month, day)`.  Used to model pandas' `.dt.year`,
`.dt.month`, `.dt.day` accessors. -/
def civilFromDays (z : Int) : Int × Nat × Nat :=
  let z' := z + 719468
  let era := z'.fdiv 146097
  let doe := (z' - era * 146097).toNat
  let yoe := (doe - doe / 1460 + doe / 36524 - doe / 146096) / 365
  let y := (yoe : Int) + era * 400
  let doy := doe - (365 * yoe + yoe / 4 - yoe / 100)
  let mp := (5 * doy + 2) / 153
  let d := doy - (153 * mp + 2) / 5 + 1
  let m := if mp < 10 then mp + 3 else mp - 9
  (if m ≤ 2 then y + 1 else y, m, d)

/-- Year component of a day number. -/
def dateYear (z : Int) : Int := (civilFromDays z).1

/-- Month component of a day number. -/
def dateMonth (z : Int) : Nat := (civilFromDays z).2.1

/-- Day-of-month component of a day number. -/
def dateDay (z : Int) : Nat := (civilFromDays z).2.2

/-- The race sampling list of `generate_fake_patients`. -/
def races : List String := ["White", "Black", "Asian", "Other"]

/-- The ethnicity sampling list of `generate_fake_patients`. -/
def ethnicities : List String := ["Not Hispanic or Latino", "Hispanic or Latino"]

/-- One fake patient record, as appended to `data` in `generate_fake_patients`.
Free-text faker fields (uuid, name, address, phone, email) are modelled as the
raw draws that produced them. -/
structure PersonRecord where
  person_source_value : Nat
  full_name : Nat
  gender : String
  birthdate : Int
  address : Nat
  phone : Nat
  email : Nat
  race : String
  ethnicity : String
deriving DecidableEq, Repr

/-- One iteration of the loop body of `generate_fake_patients`: the draws occur
in source order (gender, race, ethnicity, birthdate, then the dict literal's
uuid, name, address, phone, email), nine draws in all. -/
def genPerson (today : Int) (g : RStream) : PersonRecord × RStream :=
  let gender := listChoice ["Male", "Female"] "Male" g
  let race := listChoice races "White" (rtail g)
  let ethnicity := listChoice ethnicities "Not Hispanic or Latino" (rtail (rtail g))
  let birthdate := date_of_birth today 18 90 (rtail (rtail (rtail g)))
  let g4 := rtail (rtail (rtail (rtail g)))
  ({ person_source_value := rhead g4
     full_name := rhead (rtail g4)
     gender := gender
     birthdate := birthdate
     address := rhead (rtail (rtail g4))
     phone := rhead (rtail (rtail (rtail g4)))
     email := rhead (rtail (rtail (rtail (rtail g4))))
     race := race
     ethnicity := ethnicity },
   rtail (rtail (rtail (rtail (rtail g4)))))

/-- Embedding of `generate_fake_patients(n)`: `n` records drawn in order from
the stream (the `pd.DataFrame` is the list of its rows). -/
def generate_fake_patients (today : Int) : Nat → RStream → List PersonRecord × RStream
  | 0, g => ([], g)
  | n + 1, g =>
    let pg := genPerson today g
    let rest := generate_fake_patients today n pg.2
    (pg.1 :: rest.1, rest.2)

/-- Embedding of `map_gender`: `{'Male': 8507, 'Female': 8532}.get(gender, 0)`. -/
def map_gender (gender : String) : Nat :=
  if gender = "Male" then 8507 else if gender = "Female" then 8532 else 0

/-- Embedding of `map_race`:
`{'White': 8527, 'Black': 8516, 'Asian': 8515, 'Other': 8529}.get(race, 0)`. -/
def map_race (race : String) : Nat :=
  if race = "White" then 8527
  else if race = "Black" then 8516
  else if race = "Asian" then 8515
  else if race = "Other" then 8529
  else 0

/-- Embedding of `map_ethnicity`:
`{'Not Hispanic or Latino': 38070399, 'Hispanic or Latino': 38003563}.get(ethnicity, 0)`. -/
def map_ethnicity (ethnicity : String) : Nat :=
  if ethnicity = "Not Hispanic or Latino" then 38070399
  else if ethnicity = "Hispanic or Latino" then 38003563
  else 0

/-- One row of the OMOP person table built by `convert_to_omop_person`.
The three always-`None` columns are `Option Int`; the three constant
`*_source_concept_id` columns carry the literal 0 from the source. -/
structure OmopPersonRow where
  person_id : Nat
  gender_concept_id : Nat
  year_of_birth : Int
  month_of_birth : Nat
  day_of_birth : Nat
  birth_datetime : Int
  race_concept_id : Nat
  ethnicity_concept_id : Nat
  location_id : Option Int
  provider_id : Option Int
  care_site_id : Option Int
  person_source_value : Nat
  gender_source_value : String
  gender_source_concept_id : Nat
  race_source_value : String
  race_source_concept_id : Nat
  ethnicity_source_value : String
  ethnicity_source_concept_id : Nat
deriving DecidableEq, Repr

/-- The row of the OMOP person table derived from one input record, with the
given `person_id`; field for field as in the `pd.DataFrame` literal of
`convert_to_omop_person`. -/
def omopRowOf (pid : Nat) (r : PersonRecord) : OmopPersonRow :=
  { person_id := pid
    gender_concept_id := map_gender r.gender
    year_of_birth := dateYear r.birthdate
    month_of_birth := dateMonth r.birthdate
    day_of_birth := dateDay r.birthdate
    birth_datetime := r.birthdate
    race_concept_id := map_race r.race
    ethnicity_concept_id := map_ethnicity r.ethnicity
    location_id := none
    provider_id := none
    care_site_id := none
    person_source_value := r.person_source_value
    gender_source_value := r.gender
    gender_source_concept_id := 0
    race_source_value := r.race
    race_source_concept_id := 0
    ethnicity_source_value := r.ethnicity
    ethnicity_source_concept_id := 0 }

/-- The `person_id` column is `range(1, len(df) + 1)` zipped against the rows:
row `i` (0-based) gets id `k + i`. -/
def convertAux (k : Nat) : List PersonRecord → List OmopPersonRow
  | [] => []
  | r :: rs => omopRowOf k r :: convertAux (k + 1) rs

/-- Embedding of `convert_to_omop_person(df)`. -/
def convert_to_omop_person (df : List PersonRecord) : List OmopPersonRow :=
  convertAux 1 df

/-- Embedding of the `icd_to_omop` dict as Python's `d[key]` lookup: `some`
of the mapped concept on the four keys, `none` (a `KeyError`) elsewhere. -/
def icd_to_omop (icd : String) : Option Nat :=
  if icd = "E11.9" then some 201826
  else if icd = "I10" then some 320128
  else if icd = "J45.909" then some 317009
  else if icd = "F32.9" then some 440383
  else none

/-- Embedding of `icd_codes = list(icd_to_omop.keys())`. -/
def icd_codes : List String := ["E11.9", "I10", "J45.909", "F32.9"]

/-- One row of the condition_occurrence table built by
`generate_full_condition_occurrence`. -/
structure CondRow where
  condition_occurrence_id : Nat
  person_id : Nat
  condition_concept_id : Nat
  condition_start_date : Int
  condition_start_datetime : Int
  condition_end_date : Int
  condition_end_datetime : Int
  condition_type_concept_id : Nat
  stop_reason : Option Int
  provider_id : Option Int
  visit_occurrence_id : Option Int
  visit_detail_id : Option Int
  condition_source_value : String
  condition_source_concept_id : Nat
  condition_status_concept_id : Nat
deriving DecidableEq, Repr

/-- The dict appended for one sampled condition: `accLen` is `len(conditions)`
at append time, so the id is `accLen + 1`; `icd_to_omop[icd]` is total here
because `icd` is always drawn from `icd_codes`. -/
def condRowOf (accLen pid : Nat) (icd : String) (sd ed : Int) : CondRow :=
  { condition_occurrence_id := accLen + 1
    person_id := pid
    condition_concept_id := (icd_to_omop icd).getD 0
    condition_start_date := sd
    condition_start_datetime := sd
    condition_end_date := ed
    condition_end_datetime := ed
    condition_type_concept_id := 32020
    stop_reason := none
    provider_id := none
    visit_occurrence_id := none
    visit_detail_id := none
    condition_source_value := icd
    condition_source_concept_id := 0
    condition_status_concept_id := 0 }

/-- The inner `for _ in range(num_conditions)` loop: draws an ICD code, a start
date in `[today - 5y, today - 6m]` (with modelled deltas `1825` and `180`
days), and an end date in `[start, today]`, appending one row per iteration. -/
def condInner (today : Int) (pid : Nat) :
    Nat → List CondRow → RStream → List CondRow × RStream
  | 0, acc, g => (acc, g)
  | k + 1, acc, g =>
    let icd := listChoice icd_codes "E11.9" g
    let sd := dateBetween (today - 1825) (today - 180) (rtail g)
    let ed := dateBetween sd today (rtail (rtail g))
    condInner today pid k (acc ++ [condRowOf acc.length pid icd sd ed])
      (rtail (rtail (rtail g)))

/-- The outer `for i, person in person_df.iterrows()` loop: draws
`num_conditions = random.randint(1, 3)` and runs the inner loop for each
person in order. -/
def condOuter (today : Int) :
    List OmopPersonRow → List CondRow → RStream → List CondRow × RStream
  | [], acc, g => (acc, g)
  | p :: ps, acc, g =>
    let k := randint 1 3 g
    let inner := condInner today p.person_id k acc (rtail g)
    condOuter today ps inner.1 inner.2

/-- Embedding of `generate_full_condition_occurrence(person_df)`. -/
def generate_full_condition_occurrence (today : Int)
    (person_df : List OmopPersonRow) (g : RStream) : List CondRow :=
  (condOuter today person_df [] g).1

/-- A default patient record, used to pick concrete rows out of generated
lists. -/
def dfltPerson : PersonRecord :=
  { person_source_value := 0, full_name := 0, gender := "", birthdate := 0
    address := 0, phone := 0, email := 0, race := "", ethnicity := "" }

/-- A default condition row. -/
def dfltCond : CondRow :=
  { condition_occurrence_id := 0, person_id := 0, condition_concept_id := 0
    condition_start_date := 0, condition_start_datetime := 0
    condition_end_date := 0, condition_end_datetime := 0
    condition_type_concept_id := 0, stop_reason := none, provider_id := none
    visit_occurrence_id := none, visit_detail_id := none
    condition_source_value := "", condition_source_concept_id := 0
    condition_status_concept_id := 0 }

lemma le_dateBetween (lo hi : Int) (g : RStream) : lo ≤ dateBetween lo hi g := by
  unfold dateBetween
  have : (0 : Int) ≤ (rhead g % ((hi - lo).toNat + 1) : Nat) := Int.natCast_nonneg _
  omega

lemma dateBetween_le {lo hi : Int} (h : lo ≤ hi) (g : RStream) :
    dateBetween lo hi g ≤ hi := by
  unfold dateBetween
  have h1 : rhead g % ((hi - lo).toNat + 1) ≤ (hi - lo).toNat :=
    Nat.le_of_lt_succ (Nat.mod_lt _ (Nat.succ_pos _))
  have h2 : ((hi - lo).toNat : Int) = hi - lo := Int.toNat_of_nonneg (by omega)
  have h3 : ((rhead g % ((hi - lo).toNat + 1) : Nat) : Int) ≤ ((hi - lo).toNat : Int) :=
    Int.ofNat_le.mpr h1
  omega

lemma randint_one_le (g : RStream) : 1 ≤ randint 1 3 g := Nat.le_add_right 1 _

lemma randint_le_three (g : RStream) : randint 1 3 g ≤ 3 := by
  unfold randint
  have : rhead g % 3 < 3 := Nat.mod_lt _ (by omega)
  omega

lemma listChoice_mem {α : Type} (xs : List α) (d : α) (g : RStream) (h : xs ≠ []) :
    listChoice xs d g ∈ xs := by
  unfold listChoice
  have hlen : 0 < xs.length := List.length_pos.mpr h
  have hlt : rhead g % xs.length < xs.length := Nat.mod_lt _ hlen
  rw [List.getD_eq_getElem?_getD, List.getElem?_eq_getElem hlt]
  exact List.getElem_mem hlt

lemma generate_fake_patients_length (today : Int) (n : Nat) (g : RStream) :
    (generate_fake_patients today n g).1.length = n := by
  induction n generalizing g with
  | zero => rfl
  | succ n ih => simp [generate_fake_patients, ih]

lemma convertAux_length (k : Nat) (df : List PersonRecord) :
    (convertAux k df).length = df.length := by
  induction df generalizing k with
  | nil => rfl
  | cons r rs ih => simp [convertAux, ih]

lemma convertAux_map_person_id (k : Nat) (df : List PersonRecord) :
    (convertAux k df).map OmopPersonRow.person_id = List.range' k df.length := by
  induction df generalizing k with
  | nil => rfl
  | cons r rs ih =>
    simp only [convertAux, List.map_cons, ih, List.length_cons, List.range'_succ]
    rfl

/-- C1: for every input count N, the standardized person table produced by
`convert_to_omop_person` applied to `generate_fake_patients(N)` has exactly N
rows and its `person_id` column is exactly the sequence 1, 2, ..., N in order
(in particular for every N ≥ 1). -/
theorem person_table_rows_and_ids (today : Int) (n : Nat) (g : RStream) :
    (convert_to_omop_person (generate_fake_patients today n g).1).length = n ∧
    (convert_to_omop_person (generate_fake_patients today n g).1).map
        OmopPersonRow.person_id = List.range' 1 n := by
  constructor
  · rw [convert_to_omop_person, convertAux_length, generate_fake_patients_length]
  · rw [convert_to_omop_person, convertAux_map_person_id, generate_fake_patients_length]

lemma convertAux_forall₂ (k : Nat) (df : List PersonRecord) :
    List.Forall₂ (fun (rec : PersonRecord) (row : OmopPersonRow) =>
      row.year_of_birth = dateYear rec.birthdate ∧
      row.month_of_birth = dateMonth rec.birthdate ∧
      row.day_of_birth = dateDay rec.birthdate ∧
      row.birth_datetime = rec.birthdate ∧
      row.gender_source_value = rec.gender ∧
      row.race_source_value = rec.race ∧
      row.ethnicity_source_value = rec.ethnicity) df (convertAux k df) := by
  induction df generalizing k with
  | nil => exact List.Forall₂.nil
  | cons r rs ih =>
    exact List.Forall₂.cons ⟨rfl, rfl, rfl, rfl, rfl, rfl, rfl⟩ (ih (k + 1))

/-- C10: each standardized person row has year/month/day of birth equal to the
calendar components of its `birth_datetime`, `birth_datetime` equal to the
input record's `birthdate`, and the three `*_source_value` columns equal to the
input record's categorical strings unchanged (stated row-by-row via
`Forall₂` over the input table and its image). -/
theorem person_row_field_passthrough (df : List PersonRecord) :
    List.Forall₂ (fun (rec : PersonRecord) (row : OmopPersonRow) =>
      row.year_of_birth = dateYear row.birth_datetime ∧
      row.month_of_birth = dateMonth row.birth_datetime ∧
      row.day_of_birth = dateDay row.birth_datetime ∧
      row.birth_datetime = rec.birthdate ∧
      row.gender_source_value = rec.gender ∧
      row.race_source_value = rec.race ∧
      row.ethnicity_source_value = rec.ethnicity) df (convert_to_omop_person df) := by
  have h := convertAux_forall₂ 1 df
  refine h.imp ?_
  intro rec row hr
  obtain ⟨h1, h2, h3, h4, h5, h6, h7⟩ := hr
  exact ⟨by rw [h1, h4], by rw [h2, h4], by rw [h3, h4], h4, h5, h6, h7⟩

/-- C2 counterexample: the diagnosis table is accessed with plain dict
indexing (`icd_to_omop[icd]`), not `.get(icd, 0)`, so an input string outside
the table does not yield the sentinel 0 — the lookup has no value (a
`KeyError` in Python), refuting the claim that every unmapped string maps
to 0 with no error for the diagnosis table. -/
theorem icd_lookup_unknown_raises :
    icd_to_omop "XYZ" = none ∧ icd_to_omop "XYZ" ≠ some 0 := by decide

/-- C2 amended: `map_gender`, `map_race` and `map_ethnicity` are total, map
the listed keys to the listed codes, and map every other string to the
sentinel 0 with no error; the diagnosis table maps its four keys to the listed
codes, but an input string outside the table yields no value (a `KeyError`)
rather than 0. -/
theorem mapping_tables_amended (s : String) :
    map_gender "Male" = 8507 ∧ map_gender "Female" = 8532 ∧
    map_race "White" = 8527 ∧ map_race "Black" = 8516 ∧
    map_race "Asian" = 8515 ∧ map_race "Other" = 8529 ∧
    map_ethnicity "Not Hispanic or Latino" = 38070399 ∧
    map_ethnicity "Hispanic or Latino" = 38003563 ∧
    icd_to_omop "E11.9" = some 201826 ∧ icd_to_omop "I10" = some 320128 ∧
    icd_to_omop "J45.909" = some 317009 ∧ icd_to_omop "F32.9" = some 440383 ∧
    (s ≠ "Male" → s ≠ "Female" → map_gender s = 0) ∧
    (s ≠ "White" → s ≠ "Black" → s ≠ "Asian" → s ≠ "Other" → map_race s = 0) ∧
    (s ≠ "Not Hispanic or Latino" → s ≠ "Hispanic or Latino" →
      map_ethnicity s = 0) ∧
    (s ∉ icd_codes → icd_to_omop s = none) := by
  refine ⟨by decide, by decide, by decide, by decide, by decide, by decide,
    by decide, by decide, by decide, by decide, by decide, by decide,
    ?_, ?_, ?_, ?_⟩
  · intro h1 h2
    simp [map_gender, h1, h2]
  · intro h1 h2 h3 h4
    simp [map_race, h1, h2, h3, h4]
  · intro h1 h2
    simp [map_ethnicity, h1, h2]
  · intro h
    simp only [icd_codes, List.mem_cons, List.not_mem_nil, or_false, not_or] at h
    simp [icd_to_omop, h.1, h.2.1, h.2.2.1, h.2.2.2]

/-- Witness for the amended C2 theorem at the concrete unmapped string
`"Zed"`. -/
theorem mapping_tables_amended_witness :
    map_gender "Zed" = 0 ∧ map_race "Zed" = 0 ∧ map_ethnicity "Zed" = 0 ∧
    icd_to_omop "Zed" = none := by
  obtain ⟨-, -, -, -, -, -, -, -, -, -, -, -, hg, hr, he, hi⟩ :=
    mapping_tables_amended "Zed"
  exact ⟨hg (by decide) (by decide), hr (by decide) (by decide) (by decide) (by decide),
    he (by decide) (by decide), hi (by decide)⟩

/-- C6: generation is a deterministic function of the seed and the count —
two runs with the same seeded stream produce identical record lists — and in
the concrete scenario N = 5, seed 123, the first record (person_id 1) has the
fixed gender/race/ethnicity triple (Male, Black, Not Hispanic or Latino),
independent of the generation date. -/
theorem generation_deterministic_seed123 (today : Int) (n : Nat) :
    (generate_fake_patients today n (seedStream 123)).1
      = (generate_fake_patients today n (seedStream 123)).1 ∧
    ((generate_fake_patients today 5 (seedStream 123)).1.map
        (fun r => (r.gender, r.race, r.ethnicity))).head?
      = some ("Male", "Black", "Not Hispanic or Latino") :=
  ⟨rfl, rfl⟩

lemma date_of_birth_age (today : Int) (g : RStream) :
    18 ≤ ageAt today (date_of_birth today 18 90 g) ∧
    ageAt today (date_of_birth today 18 90 g) ≤ 90 := by
  have hlo : today - 365 * (90 + 1) + 1 ≤ date_of_birth today 18 90 g :=
    le_dateBetween _ _ g
  have hhi : date_of_birth today 18 90 g ≤ today - 365 * 18 :=
    dateBetween_le (by omega) g
  unfold ageAt
  constructor
  · have h1 : (6570 : Int) ≤ today - date_of_birth today 18 90 g := by omega
    have h2 : (6570 : Int) / 365 ≤ (today - date_of_birth today 18 90 g) / 365 :=
      Int.ediv_le_ediv (by omega) h1
    omega
  · have h1 : today - date_of_birth today 18 90 g ≤ 33214 := by omega
    have h2 : (today - date_of_birth today 18 90 g) / 365 ≤ (33214 : Int) / 365 :=
      Int.ediv_le_ediv (by omega) h1
    omega

lemma generate_fake_patients_birthdate (today : Int) (n : Nat) (g : RStream) :
    ∀ r ∈ (generate_fake_patients today n g).1,
      ∃ g', r.birthdate = date_of_birth today 18 90 g' := by
  induction n generalizing g with
  | zero => intro r hr; cases hr
  | succ n ih =>
    intro r hr
    rcases List.mem_cons.mp hr with h | h
    · subst h
      exact ⟨rtail (rtail (rtail g)), rfl⟩
    · exact ih _ r h

/-- C7: every record produced by `generate_fake_patients` has an age at
generation time (full years from its birthdate to `today`) between 18 and 90
inclusive. -/
theorem generated_age_in_range (today : Int) (n : Nat) (g : RStream) :
    ∀ r ∈ (generate_fake_patients today n g).1,
      18 ≤ ageAt today r.birthdate ∧ ageAt today r.birthdate ≤ 90 := by
  intro r hr
  obtain ⟨g', hg'⟩ := generate_fake_patients_birthdate today n g r hr
  rw [hg']
  exact date_of_birth_age today g'

/-- Witness for C7 at a concrete run: one patient, generation day 20000,
all-zero draw stream. -/
theorem generated_age_in_range_witness :
    ((generate_fake_patients 20000 1 (fun _ => 0)).1.headD dfltPerson
        ∈ (generate_fake_patients 20000 1 (fun _ => 0)).1) ∧
    (18 ≤ ageAt 20000 ((generate_fake_patients 20000 1 (fun _ => 0)).1.headD
        dfltPerson).birthdate ∧
     ageAt 20000 ((generate_fake_patients 20000 1 (fun _ => 0)).1.headD
        dfltPerson).birthdate ≤ 90) :=
  ⟨by decide, generated_age_in_range 20000 1 (fun _ => 0) _ (by decide)⟩

/-- The per-row invariant established by the inner loop of
`generate_full_condition_occurrence` for the person with id `pid`. -/
def CondRowOk (today : Int) (pid : Nat) (r : CondRow) : Prop :=
  r.person_id = pid ∧
  r.condition_source_value ∈ icd_codes ∧
  icd_to_omop r.condition_source_value = some r.condition_concept_id ∧
  r.condition_start_date ≤ r.condition_end_date ∧
  r.condition_end_date ≤ today ∧
  today - 1825 ≤ r.condition_start_date ∧
  r.condition_start_date ≤ today - 180

lemma icd_lookup_of_mem {s : String} (hs : s ∈ icd_codes) :
    icd_to_omop s = some ((icd_to_omop s).getD 0) := by
  simp only [icd_codes, List.mem_cons, List.not_mem_nil, or_false] at hs
  rcases hs with rfl | rfl | rfl | rfl <;> rfl

lemma condRowOf_ok (today : Int) (accLen pid : Nat) (g : RStream) :
    CondRowOk today pid
      (condRowOf accLen pid (listChoice icd_codes "E11.9" g)
        (dateBetween (today - 1825) (today - 180) (rtail g))
        (dateBetween (dateBetween (today - 1825) (today - 180) (rtail g)) today
          (rtail (rtail g)))) := by
  have hicd : listChoice icd_codes "E11.9" g ∈ icd_codes :=
    listChoice_mem _ _ _ (by decide)
  have hsd1 : today - 1825 ≤ dateBetween (today - 1825) (today - 180) (rtail g) :=
    le_dateBetween _ _ _
  have hsd2 : dateBetween (today - 1825) (today - 180) (rtail g) ≤ today - 180 :=
    dateBetween_le (by omega) _
  have hed1 : dateBetween (today - 1825) (today - 180) (rtail g) ≤
      dateBetween (dateBetween (today - 1825) (today - 180) (rtail g)) today
        (rtail (rtail g)) :=
    le_dateBetween _ _ _
  have hed2 : dateBetween (dateBetween (today - 1825) (today - 180) (rtail g)) today
      (rtail (rtail g)) ≤ today :=
    dateBetween_le (by omega) _
  exact ⟨rfl, hicd, icd_lookup_of_mem hicd, hed1, hed2, hsd1, hsd2⟩

lemma condInner_mem (today : Int) (pid : Nat) :
    ∀ (k : Nat) (acc : List CondRow) (g : RStream),
      ∀ r ∈ (condInner today pid k acc g).1, r ∈ acc ∨ CondRowOk today pid r := by
  intro k
  induction k with
  | zero => intro acc g r hr; exact Or.inl hr
  | succ k ih =>
    intro acc g r hr
    rcases ih _ _ r hr with h | h
    · rcases List.mem_append.mp h with h' | h'
      · exact Or.inl h'
      · rcases List.mem_singleton.mp h' with rfl
        exact Or.inr (condRowOf_ok today acc.length pid g)
    · exact Or.inr h

lemma condOuter_mem (today : Int) :
    ∀ (ps : List OmopPersonRow) (acc : List CondRow) (g : RStream),
      ∀ r ∈ (condOuter today ps acc g).1,
        r ∈ acc ∨ ∃ p ∈ ps, CondRowOk today p.person_id r := by
  intro ps
  induction ps with
  | nil => intro acc g r hr; exact Or.inl hr
  | cons p ps ih =>
    intro acc g r hr
    rcases ih _ _ r hr with h | h
    · rcases condInner_mem today p.person_id _ _ _ r h with h' | h'
      · exact Or.inl h'
      · exact Or.inr ⟨p, List.mem_cons_self p ps, h'⟩
    · obtain ⟨q, hq, hok⟩ := h
      exact Or.inr ⟨q, List.mem_cons_of_mem p hq, hok⟩

/-- C3: every row of the condition table satisfies
`condition_start_date ≤ condition_end_date ≤ today`, and the start date lies
between 5 years (modelled as 1825 days) and 6 months (modelled as 180 days)
before the generation date. -/
theorem condition_dates_in_range (today : Int) (ps : List OmopPersonRow)
    (g : RStream) :
    ∀ r ∈ generate_full_condition_occurrence today ps g,
      r.condition_start_date ≤ r.condition_end_date ∧
      r.condition_end_date ≤ today ∧
      today - 1825 ≤ r.condition_start_date ∧
      r.condition_start_date ≤ today - 180 := by
  intro r hr
  rcases condOuter_mem today ps [] g r hr with h | h
  · cases h
  · obtain ⟨p, -, hok⟩ := h
    exact ⟨hok.2.2.2.1, hok.2.2.2.2.1, hok.2.2.2.2.2.1, hok.2.2.2.2.2.2⟩

/-- Witness for C3 at a concrete run: one person, generation day 20000,
all-zero draw stream. -/
theorem condition_dates_in_range_witness :
    ((generate_full_condition_occurrence 20000 [omopRowOf 1 dfltPerson]
        (fun _ => 0)).headD dfltCond
      ∈ generate_full_condition_occurrence 20000 [omopRowOf 1 dfltPerson]
        (fun _ => 0)) ∧
    (((generate_full_condition_occurrence 20000 [omopRowOf 1 dfltPerson]
        (fun _ => 0)).headD dfltCond).condition_start_date ≤
      ((generate_full_condition_occurrence 20000 [omopRowOf 1 dfltPerson]
        (fun _ => 0)).headD dfltCond).condition_end_date ∧
     ((generate_full_condition_occurrence 20000 [omopRowOf 1 dfltPerson]
        (fun _ => 0)).headD dfltCond).condition_end_date ≤ 20000 ∧
     20000 - 1825 ≤ ((generate_full_condition_occurrence 20000
        [omopRowOf 1 dfltPerson] (fun _ => 0)).headD dfltCond).condition_start_date ∧
     ((generate_full_condition_occurrence 20000 [omopRowOf 1 dfltPerson]
        (fun _ => 0)).headD dfltCond).condition_start_date ≤ 20000 - 180) :=
  ⟨by decide, condition_dates_in_range 20000 [omopRowOf 1 dfltPerson]
    (fun _ => 0) _ (by decide)⟩

/-- C9: every row of the condition table has `condition_source_value` drawn
from the four ICD strings and `condition_concept_id` equal to the
`icd_to_omop` value of that same `condition_source_value`. -/
theorem condition_source_concept_consistent (today : Int)
    (ps : List OmopPersonRow) (g : RStream) :
    ∀ r ∈ generate_full_condition_occurrence today ps g,
      r.condition_source_value ∈ icd_codes ∧
      icd_to_omop r.condition_source_value = some r.condition_concept_id := by
  intro r hr
  rcases condOuter_mem today ps [] g r hr with h | h
  · cases h
  · obtain ⟨p, -, hok⟩ := h
    exact ⟨hok.2.1, hok.2.2.1⟩

/-- Witness for C9 at a concrete run: one person, generation day 19000,
identity draw stream. -/
theorem condition_source_concept_consistent_witness :
    ((generate_full_condition_occurrence 19000 [omopRowOf 1 dfltPerson]
        (fun n => n)).headD dfltCond
      ∈ generate_full_condition_occurrence 19000 [omopRowOf 1 dfltPerson]
        (fun n => n)) ∧
    (((generate_full_condition_occurrence 19000 [omopRowOf 1 dfltPerson]
        (fun n => n)).headD dfltCond).condition_source_value ∈ icd_codes ∧
     icd_to_omop ((generate_full_condition_occurrence 19000
        [omopRowOf 1 dfltPerson] (fun n => n)).headD dfltCond).condition_source_value
      = some ((generate_full_condition_occurrence 19000 [omopRowOf 1 dfltPerson]
        (fun n => n)).headD dfltCond).condition_concept_id) :=
  ⟨by decide, condition_source_concept_consistent 19000 [omopRowOf 1 dfltPerson]
    (fun n => n) _ (by decide)⟩

lemma condInner_countP (today : Int) (pid q : Nat) :
    ∀ (k : Nat) (acc : List CondRow) (g : RStream),
      ((condInner today pid k acc g).1.countP (fun r => r.person_id == q))
        = acc.countP (fun r => r.person_id == q) + (if pid = q then k else 0) := by
  intro k
  induction k with
  | zero => intro acc g; simp [condInner]
  | succ k ih =>
    intro acc g
    rw [condInner, ih]
    rw [List.countP_append]
    have hrow : (List.countP (fun r => r.person_id == q)
        [condRowOf acc.length pid (listChoice icd_codes "E11.9" g)
          (dateBetween (today - 1825) (today - 180) (rtail g))
          (dateBetween (dateBetween (today - 1825) (today - 180) (rtail g)) today
            (rtail (rtail g)))]) = if pid = q then 1 else 0 := by
      by_cases h : pid = q
      · simp [List.countP_cons, condRowOf, h]
      · simp [List.countP_cons, condRowOf, h]
    rw [hrow]
    split_ifs <;> omega

lemma condInner_length (today : Int) (pid : Nat) :
    ∀ (k : Nat) (acc : List CondRow) (g : RStream),
      (condInner today pid k acc g).1.length = acc.length + k := by
  intro k
  induction k with
  | zero => intro acc g; simp [condInner]
  | succ k ih =>
    intro acc g
    rw [condInner, ih]
    simp
    omega

lemma condOuter_countP_notmem (today : Int) (q : Nat) :
    ∀ (ps : List OmopPersonRow) (acc : List CondRow) (g : RStream),
      q ∉ ps.map OmopPersonRow.person_id →
      ((condOuter today ps acc g).1.countP (fun r => r.person_id == q))
        = acc.countP (fun r => r.person_id == q) := by
  intro ps
  induction ps with
  | nil => intro acc g _; rfl
  | cons p ps ih =>
    intro acc g hq
    simp only [List.map_cons, List.mem_cons, not_or] at hq
    rw [condOuter, ih _ _ hq.2, condInner_countP,
      if_neg (fun h => hq.1 h.symm), Nat.add_zero]

lemma condOuter_countP_mem (today : Int) (q : Nat) :
    ∀ (ps : List OmopPersonRow) (acc : List CondRow) (g : RStream),
      (ps.map OmopPersonRow.person_id).Nodup →
      q ∈ ps.map OmopPersonRow.person_id →
      acc.countP (fun r => r.person_id == q) + 1 ≤
        ((condOuter today ps acc g).1.countP (fun r => r.person_id == q)) ∧
      ((condOuter today ps acc g).1.countP (fun r => r.person_id == q)) ≤
        acc.countP (fun r => r.person_id == q) + 3 := by
  intro ps
  induction ps with
  | nil => intro acc g _ hq; cases hq
  | cons p ps ih =>
    intro acc g hnd hq
    simp only [List.map_cons, List.nodup_cons] at hnd
    rcases List.mem_cons.mp hq with hpq | hq'
    · have hnot : q ∉ ps.map OmopPersonRow.person_id := by
        rw [hpq]; exact hnd.1
      rw [condOuter, condOuter_countP_notmem today q ps _ _ hnot, condInner_countP,
        if_pos hpq.symm]
      have h1 := randint_one_le g
      have h3 := randint_le_three g
      omega
    · by_cases hpq : p.person_id = q
      · exact absurd (hpq ▸ hq') hnd.1
      · have := ih (condInner today p.person_id (randint 1 3 g) acc (rtail g)).1
          (condInner today p.person_id (randint 1 3 g) acc (rtail g)).2 hnd.2 hq'
        rw [condOuter]
        rw [condInner_countP, if_neg hpq, Nat.add_zero] at this
        exact this

/-- C4 counterexample: for an input table whose `person_id` column repeats a
value, that person_id can appear in more than 3 condition rows — here two
input rows share person_id 1 and a stream that always draws 2 makes
`random.randint(1,3)` return 3 for both, so person_id 1 appears in 6 rows,
refuting the at-most-3 bound for arbitrary input tables. -/
theorem condition_count_duplicate_pid :
    (1 ∈ ([omopRowOf 1 dfltPerson, omopRowOf 1 dfltPerson].map
        OmopPersonRow.person_id)) ∧
    ((generate_full_condition_occurrence 20000
        [omopRowOf 1 dfltPerson, omopRowOf 1 dfltPerson] (fun _ => 2)).countP
        (fun r => r.person_id == 1)) = 6 ∧
    ¬ ((generate_full_condition_occurrence 20000
        [omopRowOf 1 dfltPerson, omopRowOf 1 dfltPerson] (fun _ => 2)).countP
        (fun r => r.person_id == 1)) ≤ 3 := by decide

/-- C4 amended: for every input person table whose `person_id` column has no
duplicates, each person_id of the input appears in at least 1 and at most 3
rows of the condition table, and every condition row's person_id is one of the
input table's person_ids. -/
theorem condition_rows_per_person (today : Int) (ps : List OmopPersonRow)
    (g : RStream) (hnd : (ps.map OmopPersonRow.person_id).Nodup) :
    (∀ q ∈ ps.map OmopPersonRow.person_id,
      1 ≤ ((generate_full_condition_occurrence today ps g).countP
            (fun r => r.person_id == q)) ∧
      ((generate_full_condition_occurrence today ps g).countP
            (fun r => r.person_id == q)) ≤ 3) ∧
    (∀ r ∈ generate_full_condition_occurrence today ps g,
      r.person_id ∈ ps.map OmopPersonRow.person_id) := by
  constructor
  · intro q hq
    have h := condOuter_countP_mem today q ps [] g hnd hq
    simpa using h
  · intro r hr
    rcases condOuter_mem today ps [] g r hr with h | h
    · cases h
    · obtain ⟨p, hp, hok⟩ := h
      rw [hok.1]
      exact List.mem_map_of_mem OmopPersonRow.person_id hp

/-- Witness for the amended C4 theorem: a one-person table with person_id 1,
generation day 20000, all-zero draw stream. -/
theorem condition_rows_per_person_witness :
    1 ≤ ((generate_full_condition_occurrence 20000 [omopRowOf 1 dfltPerson]
          (fun _ => 0)).countP (fun r => r.person_id == 1)) ∧
    ((generate_full_condition_occurrence 20000 [omopRowOf 1 dfltPerson]
          (fun _ => 0)).countP (fun r => r.person_id == 1)) ≤ 3 :=
  (condition_rows_per_person 20000 [omopRowOf 1 dfltPerson] (fun _ => 0)
    (by decide)).1 1 (by decide)

lemma condInner_map_id (today : Int) (pid : Nat) :
    ∀ (k : Nat) (acc : List CondRow) (g : RStream),
      (condInner today pid k acc g).1.map CondRow.condition_occurrence_id
        = acc.map CondRow.condition_occurrence_id
          ++ List.range' (acc.length + 1) k := by
  intro k
  induction k with
  | zero => intro acc g; simp [condInner]
  | succ k ih =>
    intro acc g
    rw [condInner, ih]
    rw [List.map_append, List.length_append]
    simp only [List.map_cons, List.map_nil, List.length_cons, List.length_nil,
      List.range'_succ]
    rw [List.append_assoc]
    rfl

lemma condOuter_map_id (today : Int) :
    ∀ (ps : List OmopPersonRow) (acc : List CondRow) (g : RStream),
      acc.map CondRow.condition_occurrence_id = List.range' 1 acc.length →
      (condOuter today ps acc g).1.map CondRow.condition_occurrence_id
        = List.range' 1 (condOuter today ps acc g).1.length := by
  intro ps
  induction ps with
  | nil => intro acc g h; exact h
  | cons p ps ih =>
    intro acc g h
    rw [condOuter]
    apply ih
    rw [condInner_map_id, h, condInner_length, Nat.add_comm acc.length 1,
      List.range'_append_1, Nat.add_comm (randint 1 3 g) acc.length]

/-- C5: the `condition_occurrence_id` column of the condition table is exactly
the sequence 1, 2, ..., total number of rows, in row order. -/
theorem condition_ids_sequential (today : Int) (ps : List OmopPersonRow)
    (g : RStream) :
    (generate_full_condition_occurrence today ps g).map
        CondRow.condition_occurrence_id
      = List.range' 1 (generate_full_condition_occurrence today ps g).length :=
  condOuter_map_id today ps [] g rfl

/-- Modelled from the spec: the Kernel Builder's source file is absent from
the repository snapshot (`src/` holds only the EHR script).  Per the spec,
the builder makes an L×L matrix with a single horizontal line of ones at the
center row `(L-1)//2`, rotates it by the angle (rotation by 0 degrees is the
identity, the case the claim is about), and divides every entry by L; entries
are rationals, standing for the exact values of the float matrix. -/
def motion_blur_kernel_angle0 (l : Nat) : List (List ℚ) :=
  (List.range l).map (fun i =>
    if i = (l - 1) / 2 then List.replicate l ((1 : ℚ) / l)
    else List.replicate l 0)

/-- Sum of all entries of a kernel matrix. -/
def kernelSum (k : List (List ℚ)) : ℚ := (k.map List.sum).sum

lemma sum_map_range_ite (m c : Nat) (x : ℚ) :
    ((List.range m).map (fun i => if i = c then x else 0)).sum
      = if c < m then x else 0 := by
  induction m with
  | zero => simp
  | succ m ih =>
    rw [List.range_succ, List.map_append, List.sum_append, ih]
    simp only [List.map_cons, List.map_nil, List.sum_cons, List.sum_nil, add_zero]
    by_cases h1 : c < m
    · have h2 : ¬ m = c := by omega
      have h3 : c < m + 1 := by omega
      simp [h1, h2, h3]
    · by_cases h2 : m = c
      · have h3 : c < m + 1 := by omega
        simp [h1, h2, h3]
      · have h3 : ¬ c < m + 1 := by omega
        simp [h1, h2, h3]

lemma kernel_angle0_sum_eq_one (l : Nat) (h : 1 ≤ l) :
    kernelSum (motion_blur_kernel_angle0 l) = 1 := by
  have hl : (l : ℚ) ≠ 0 := Nat.cast_ne_zero.mpr (by omega)
  have hzero : (List.replicate l (0 : ℚ)).sum = 0 := by
    rw [List.sum_replicate, smul_zero]
  have hone : (List.replicate l ((1 : ℚ) / l)).sum = 1 := by
    rw [List.sum_replicate, nsmul_eq_mul]
    field_simp
  unfold kernelSum motion_blur_kernel_angle0
  rw [List.map_map]
  have hfun : (List.sum ∘ fun i =>
      if i = (l - 1) / 2 then List.replicate l ((1 : ℚ) / l)
      else List.replicate l 0)
      = fun i => if i = (l - 1) / 2 then (1 : ℚ) else 0 := by
    funext i
    rw [Function.comp_apply, apply_ite List.sum, hone, hzero]
  rw [hfun, sum_map_range_ite]
  have hc : (l - 1) / 2 < l := by
    have := Nat.div_le_self (l - 1) 2
    omega
  simp [hc]

/-- C8: for every kernel length L ≥ 1 at angle 0, the Kernel Builder's output
is the normalized horizontal line filter and its entries sum to 1, hence to 1
within the floating-point tolerance 1e-6. -/
theorem kernel_angle0_normalized (l : Nat) (h : 1 ≤ l) :
    |kernelSum (motion_blur_kernel_angle0 l) - 1| ≤ 1 / 1000000 := by
  rw [kernel_angle0_sum_eq_one l h]
  norm_num

/-- Witness for C8 at the concrete length L = 5. -/
theorem kernel_angle0_normalized_witness :
    (1 ≤ 5) ∧ |kernelSum (motion_blur_kernel_angle0 5) - 1| ≤ 1 / 1000000 :=
  ⟨by norm_num, kernel_angle0_normalized 5 (by norm_num)⟩
